import Mathlib

/-!
Shallow embedding of the weather provider aggregation engine of
strautomator-core: the data model, the provider eligibility filter,
the aggregator entry points `getLocationWeather` / `getActivityWeather`
(src/weather/index.ts) and the StormGlass adapter `getWeather`
(the unnamed source file).

Timestamps are UTC epoch milliseconds as `Int`.  The dayjs call
`a.diff(b, "hours")` truncates towards zero, hence `Int.tdiv`.
Network traffic and lodash randomness are oracles carried in an `Env`
record; within one aggregator call each provider is invoked at most
once, so the adapter oracle is keyed by provider name.
-/

/-- Milliseconds in one hour. -/
def msPerHour : Int := 3600000

/-- Milliseconds in one day. -/
def msPerDay : Int := 86400000

/-- dayjs `a.diff(b, "hours")`: whole hours between two ms timestamps,
truncated towards zero. -/
def hoursDiff (a b : Int) : Int := (a - b).tdiv msPerHour

/-- dayjs `endOf("day")` on a UTC ms timestamp: last millisecond of the
current UTC day. -/
def endOfDay (t : Int) : Int := t - t.emod msPerDay + (msPerDay - 1)

/-- a JavaScript number entry of a coordinates array: either NaN or a
numeric value (modelled as a rational). -/
inductive JsNum where
  | nan : JsNum
  | num (q : Rat) : JsNum
deriving Repr, DecidableEq

/-- JS `parseFloat(c.toFixed(4))`: round to 4 decimal places. -/
def roundTo4 (q : Rat) : Rat := (round (q * 10000) : Rat) / 10000

/-- the normalized weather observation produced by an adapter
(src/weather/types `WeatherSummary`, fields needed by the claims). -/
structure WeatherSummary where
  provider : String
  summary : Option String := none
  icon : Option String := none
  temperature : Option Rat := none
  humidity : Option Rat := none
deriving Repr, DecidableEq

/-- per-provider mutable counters (`WeatherApiStats`). -/
structure WeatherApiStats where
  requestCount : Nat
  errorCount : Nat
  lastRequest : Option Int
deriving Repr, DecidableEq

/-- a registered weather provider: static coverage window plus its
runtime state (`WeatherProvider` with `stats` / `disabledTillDate`). -/
structure WeatherProvider where
  name : String
  hoursPast : Int
  hoursFuture : Int
  stats : WeatherApiStats
  disabledTillDate : Option Int := none
deriving Repr, DecidableEq

/-- outcome of one adapter `getWeather` call, as seen by the aggregator:
resolve with a summary, resolve with null/undefined, reject with an HTTP
error carrying `response.status`, or reject with some other error. -/
inductive AdapterOutcome where
  | ok (w : WeatherSummary) : AdapterOutcome
  | nullResult : AdapterOutcome
  | httpFail (status : Nat) : AdapterOutcome
  | fail : AdapterOutcome
deriving Repr, DecidableEq

/-- a thrown JavaScript error, at the granularity the aggregator
inspects it. -/
inductive JsError where
  | typeError : JsError
  | httpError (status : Nat) : JsError
  | genericError : JsError
deriving Repr, DecidableEq

deriving instance DecidableEq for Except

/-- environment of one aggregator call: current time, settings, the
lodash sampling draws and the adapter outcome oracle. -/
structure Env where
  now : Int
  perDay : String → Nat
  defaultProviders : List String
  sampleDefault : Option String
  sampleOne : List WeatherProvider → Option WeatherProvider
  sampleTwo : List WeatherProvider → List WeatherProvider
  outcomes : String → AdapterOutcome

/-- cache key: rounded coordinates plus `dDate.valueOf() / 1000`
(the source joins them into a string; the pair is kept structured). -/
abbrev CacheKey := List Rat × Rat

/-- the bitecache store; a stored `none` models a stored
null/undefined value, which reads back as a miss. -/
abbrev CacheStore := List (CacheKey × Option WeatherSummary)

/-- bitecache `get`. -/
def cacheGet (c : CacheStore) (k : CacheKey) : Option WeatherSummary :=
  match c.find? (fun e => e.1 = k) with
  | some e => e.2
  | none => none

/-- bitecache `set` (upsert; reads pick the newest entry). -/
def cacheSet (c : CacheStore) (k : CacheKey) (v : Option WeatherSummary) : CacheStore :=
  (k, v) :: c

/-- mutable aggregator-visible state: the provider registry, the
`maxHoursPast` computed at init, and the response cache. -/
structure AggState where
  providers : List WeatherProvider
  maxHoursPast : Int
  cache : CacheStore

/-- user preferences (`UserPreferences`, the fields the engine reads). -/
structure UserPreferences where
  weatherProvider : Option String := none
  weatherUnit : Option String := none
deriving Repr, DecidableEq

/-- user data (`UserData`, the fields the engine reads). -/
structure UserData where
  preferences : Option UserPreferences := none
  isPro : Bool := false
deriving Repr, DecidableEq

/-- `Weather.init` fold computing `maxHoursPast` over the registered
providers. -/
def initMaxHoursPast (providers : List WeatherProvider) : Int :=
  providers.foldl (fun m p => if p.hoursPast > m then p.hoursPast else m) 0

/-- the eligibility predicate of the `availableProviders` filter in
`getLocationWeather`: coverage of the (signed, truncated) hour distance,
the temporary-disable date, and the daily quota with its 16-hour
escape.  A `lastRequest` of null gives a NaN dayjs diff, and
`NaN > 16` is false. -/
def eligibleProvider (env : Env) (hours : Int) (p : WeatherProvider) : Bool :=
  if p.hoursPast < hours then false
  else if p.hoursFuture < -hours then false
  else if (match p.disabledTillDate with
           | some dd => decide (env.now < dd)
           | none => false) then false
  else
    decide (p.stats.requestCount < env.perDay p.name) ||
      (match p.stats.lastRequest with
       | some lr => decide (hoursDiff env.now lr > 16)
       | none => false)

/-- the `availableProviders` filter of `getLocationWeather`. -/
def availableProviders (env : Env) (hours : Int) (providers : List WeatherProvider) :
    List WeatherProvider :=
  providers.filter (eligibleProvider env hours)

/-- result of one `getLocationWeather` call: the returned value (or the
thrown error), the updated registry and cache, plus observability of the
run: attempted adapters, the computed candidate list (`none` entries model
an undefined slot), the resolved provider preference and whether the
cache answered. -/
structure LocationResult where
  result : Except JsError (Option WeatherSummary)
  providers : List WeatherProvider
  cache : CacheStore
  attempts : List String
  candidates : List (Option WeatherProvider)
  resolvedProvider : Option String
  isDefaultProvider : Bool
  usedCache : Bool

/-- provider resolution of `getLocationWeather`: explicit parameter, else
the user's stored preference, else the sampled default; the
`isDefaultProvider` flag is raised whenever no explicit parameter was
given. -/
def resolveProvider (env : Env) (user : UserData) (provider : Option String) :
    Option String × Bool :=
  match provider with
  | some p => (some p, false)
  | none =>
    let defaultProvider := env.sampleDefault
    match user.preferences with
    | some prefs =>
      match prefs.weatherProvider with
      | some wp => (some wp, true)
      | none => (defaultProvider, true)
    | none => (defaultProvider, true)

/-- cache key built from the rounded coordinates and the timestamp in
seconds. -/
def weatherCacheKey (coords : List Rat) (d : Int) : CacheKey :=
  (coords, (d : Rat) / 1000)

/-- registry update after an in-place mutation of one provider record
(the registry holds the very object the aggregator mutated). -/
def setProvider (l : List WeatherProvider) (p : WeatherProvider) :
    List WeatherProvider :=
  l.map (fun q => if q.name = p.name then p else q)

/-- increment of the shared per-provider error counter. -/
def bumpError (s : WeatherApiStats) : WeatherApiStats :=
  {s with errorCount := s.errorCount + 1}

/-- one adapter `getWeather` invocation as the aggregator observes it: a
resolved summary carries the adapter's own name in `provider` (each
adapter builds its summary that way), and a rejecting call has already
incremented the provider's shared `errorCount` in its catch block. -/
def callAdapter (p : WeatherProvider) (o : AdapterOutcome) :
    Except JsError (Option WeatherSummary) × WeatherProvider :=
  match o with
  | .ok w => (.ok (some {w with provider := p.name}), p)
  | .nullResult => (.ok none, p)
  | .httpFail s => (.error (.httpError s), {p with stats := bumpError p.stats})
  | .fail => (.error .genericError, {p with stats := bumpError p.stats})

/-- the catch block of the first adapter attempt in `getLocationWeather`:
apply the 402 disable to the failed provider, then retry with the second
candidate if one exists, otherwise fall through. -/
def afterFirstFailure (env : Env) (st : AggState) (key : CacheKey)
    (pm1 : WeatherProvider) (status : Option Nat)
    (restC candidates : List (Option WeatherProvider))
    (firstName : String) (rp : Option String) (isDef : Bool) : LocationResult :=
  let pm2 := if status = some 402 then
      {pm1 with disabledTillDate := some (endOfDay env.now + msPerHour)}
    else pm1
  let providers1 := setProvider st.providers pm2
  match restC with
  | [] =>
    -- a single candidate: the failure is logged, but control then falls
    -- through to cache.set with an unset result and to reading
    -- result.provider, which throws a TypeError
    { result := .error .typeError, providers := providers1,
      cache := cacheSet st.cache key none, attempts := [firstName],
      candidates := candidates, resolvedProvider := rp,
      isDefaultProvider := isDef, usedCache := false }
  | none :: _ =>
    -- the second slot holds undefined (a lodash sample of an empty list):
    -- reading providerModule.name throws a TypeError
    { result := .error .typeError, providers := providers1,
      cache := st.cache, attempts := [firstName], candidates := candidates,
      resolvedProvider := rp, isDefaultProvider := isDef, usedCache := false }
  | some pm2nd :: _ =>
    match callAdapter pm2nd (env.outcomes pm2nd.name) with
    | (.error _, pm2nd') =>
      -- both candidates failed: log both and return null
      { result := .ok none, providers := setProvider providers1 pm2nd',
        cache := st.cache, attempts := [firstName, pm2nd.name],
        candidates := candidates, resolvedProvider := rp,
        isDefaultProvider := isDef, usedCache := false }
    | (.ok none, pm2nd') =>
      -- the retry resolved without a summary: control falls through to
      -- reading result.provider, which throws a TypeError
      { result := .error .typeError, providers := setProvider providers1 pm2nd',
        cache := cacheSet st.cache key none,
        attempts := [firstName, pm2nd.name], candidates := candidates,
        resolvedProvider := rp, isDefaultProvider := isDef, usedCache := false }
    | (.ok (some w), pm2nd') =>
      -- fallback success: cache and return; the disable flag of the second
      -- provider is not touched on this path
      { result := .ok (some w), providers := setProvider providers1 pm2nd',
        cache := cacheSet st.cache key (some w),
        attempts := [firstName, pm2nd.name], candidates := candidates,
        resolvedProvider := rp, isDefaultProvider := isDef, usedCache := false }

/-- the try/catch of `getLocationWeather` around the candidate attempts. -/
def runCandidates (env : Env) (st : AggState) (key : CacheKey)
    (candidates : List (Option WeatherProvider)) (rp : Option String)
    (isDef : Bool) : LocationResult :=
  match candidates with
  | some pm :: restC =>
    match callAdapter pm (env.outcomes pm.name) with
    | (.ok (some w), pm1) =>
      -- success: clear the disable flag, cache the summary and return it
      let pm2 := {pm1 with disabledTillDate := none}
      { result := .ok (some w), providers := setProvider st.providers pm2,
        cache := cacheSet st.cache key (some w), attempts := [pm.name],
        candidates := candidates, resolvedProvider := rp,
        isDefaultProvider := isDef, usedCache := false }
    | (.ok none, pm1) =>
      -- "No weather summary returned" is thrown: a plain Error without a
      -- response.status, handled by the catch block
      afterFirstFailure env st key pm1 none restC candidates pm.name rp isDef
    | (.error (.httpError s), pm1) =>
      afterFirstFailure env st key pm1 (some s) restC candidates pm.name rp isDef
    | (.error _, pm1) =>
      afterFirstFailure env st key pm1 none restC candidates pm.name rp isDef
  | _ =>
    -- currentProviders[0] is undefined: the attempt throws at once and the
    -- catch block rethrows a TypeError from providerModule.name
    { result := .error .typeError, providers := st.providers,
      cache := st.cache, attempts := [], candidates := candidates,
      resolvedProvider := rp, isDefaultProvider := isDef, usedCache := false }

/-- provider filtering, candidate selection and the adapter attempts of
`getLocationWeather`, after validation and a cache miss (or bypass). -/
def fetchFresh (env : Env) (st : AggState) (coords : List Rat) (d : Int)
    (rp : Option String) (isDef : Bool) : LocationResult :=
  let hours := hoursDiff env.now d
  let avail := availableProviders env hours st.providers
  if avail.isEmpty then
    { result := .ok none, providers := st.providers, cache := st.cache,
      attempts := [], candidates := [], resolvedProvider := rp,
      isDefaultProvider := isDef, usedCache := false }
  else
    let preferredMatches := avail.filter (fun p => decide (rp = some p.name))
    let rest := avail.filter (fun p => !decide (rp = some p.name))
    let candidates : List (Option WeatherProvider) :=
      if preferredMatches.length > 0 then
        preferredMatches.map some ++ [env.sampleOne rest]
      else
        (env.sampleTwo avail).map some
    runCandidates env st (weatherCacheKey coords d) candidates rp isDef

/-- `Weather.getLocationWeather`: validation, coordinate rounding,
provider preference resolution, cache lookup, then the fetch. -/
def getLocationWeather (env : Env) (st : AggState) (user : UserData)
    (coordinates : Option (List JsNum)) (dDate : Option Int)
    (provider : Option String) : LocationResult :=
  let invalid : LocationResult :=
    { result := .ok none, providers := st.providers, cache := st.cache,
      attempts := [], candidates := [], resolvedProvider := provider,
      isDefaultProvider := false, usedCache := false }
  match dDate, coordinates with
  | some d, some cs =>
    match cs with
    | [JsNum.num a, JsNum.num b] =>
      let coords := [roundTo4 a, roundTo4 b]
      let (rp, isDef) := resolveProvider env user provider
      let key := weatherCacheKey coords d
      match cacheGet st.cache key with
      | some cached =>
        if isDef = true ∨ rp = some cached.provider then
          { result := .ok (some cached), providers := st.providers,
            cache := st.cache, attempts := [], candidates := [],
            resolvedProvider := rp, isDefaultProvider := isDef,
            usedCache := true }
        else
          fetchFresh env st coords d rp isDef
      | none => fetchFresh env st coords d rp isDef
    | _ => invalid
  | _, _ => invalid

/-- an activity weather report (`ActivityWeather`). -/
structure ActivityWeather where
  start : Option WeatherSummary := none
  mid : Option WeatherSummary := none
  «end» : Option WeatherSummary := none
deriving Repr, DecidableEq

/-- the Strava activity fields read by `getActivityWeather`; timestamps
are UTC epoch ms, `totalTime` is in seconds. -/
structure StravaActivity where
  hasLocation : Bool
  dateStart : Int
  dateEnd : Int
  utcStartOffset : Int
  totalTime : Int
  locationStart : Option (List JsNum) := none
  locationMid : Option (List JsNum) := none
  locationEnd : Option (List JsNum) := none
deriving Repr, DecidableEq

/-- result of one `getActivityWeather` call: the returned report (null on
any failure), the updated state, plus observability of the run: adapter
attempts, the (coordinates, date) arguments of every inner
`getLocationWeather` call, and the values the start/mid/end lookups
produced. -/
structure ActivityResult where
  result : Option ActivityWeather
  providers : List WeatherProvider
  cache : CacheStore
  attempts : List String
  lookups : List (Option (List JsNum) × Int)
  startResult : Option WeatherSummary
  midResult : Option WeatherSummary
  endResult : Option WeatherSummary

/-- the start/end validity check at the end of `getActivityWeather`:
with both unset, "Failed to get the activity weather" is thrown and the
outer catch returns null; otherwise the report is returned as built. -/
def mkActivityResult (st : AggState) (ws wm we : Option WeatherSummary)
    (attempts : List String) (lookups : List (Option (List JsNum) × Int)) :
    ActivityResult :=
  if ws = none ∧ we = none then
    { result := none, providers := st.providers, cache := st.cache,
      attempts := attempts, lookups := lookups,
      startResult := ws, midResult := wm, endResult := we }
  else
    { result := some {start := ws, mid := wm, «end» := we},
      providers := st.providers, cache := st.cache,
      attempts := attempts, lookups := lookups,
      startResult := ws, midResult := wm, endResult := we }

/-- tail of `getActivityWeather` after the start/end lookups: the
mid-activity lookup for PRO users on activities longer than 3 hours
(10800 s) in its own try/catch (a rejection is swallowed), then the
start/end validity check. -/
def activityFinish (env : Env) (st : AggState) (user : UserData)
    (activity : StravaActivity) (ws we : Option WeatherSummary)
    (attempts : List String) (lookups : List (Option (List JsNum) × Int)) :
    ActivityResult :=
  if user.isPro = true ∧ activity.totalTime > 10800 then
    let dateMid := activity.dateStart + activity.totalTime * 500
    let r3 := getLocationWeather env st user activity.locationMid (some dateMid) none
    let st3 : AggState := {st with providers := r3.providers, cache := r3.cache}
    let wm := match r3.result with
      | .error _ => none
      | .ok wm => wm
    mkActivityResult st3 ws wm we (attempts ++ r3.attempts)
      (lookups ++ [(activity.locationMid, dateMid)])
  else mkActivityResult st ws none we attempts lookups

/-- `Weather.getActivityWeather`: location guard, the out-of-coverage
guard against `maxHoursPast`, then the start and end lookups (both dates
are built from `activity.dateStart`, as in the source) followed by
`activityFinish`. -/
def getActivityWeather (env : Env) (st : AggState) (user : UserData)
    (activity : StravaActivity) : ActivityResult :=
  if !activity.hasLocation then
    { result := none, providers := st.providers, cache := st.cache,
      attempts := [], lookups := [], startResult := none,
      midResult := none, endResult := none }
  else
    let minDate := env.now - st.maxHoursPast * msPerHour
    if minDate > activity.dateEnd then
      { result := none, providers := st.providers, cache := st.cache,
        attempts := [], lookups := [], startResult := none,
        midResult := none, endResult := none }
    else
      let dateStart := activity.dateStart
      let dateEnd := activity.dateStart
      let r1 := getLocationWeather env st user activity.locationStart (some dateStart) none
      let st1 : AggState := {st with providers := r1.providers, cache := r1.cache}
      match r1.result with
      | .error _ =>
        -- the shared try/catch around the start/end pair: a rejection of
        -- the start lookup skips the end lookup
        activityFinish env st1 user activity none none r1.attempts
          [(activity.locationStart, dateStart)]
      | .ok ws =>
        let r2 := getLocationWeather env st1 user activity.locationEnd (some dateEnd) none
        let st2 : AggState := {st1 with providers := r2.providers, cache := r2.cache}
        match r2.result with
        | .error _ =>
          activityFinish env st2 user activity ws none (r1.attempts ++ r2.attempts)
            [(activity.locationStart, dateStart), (activity.locationEnd, dateEnd)]
        | .ok we =>
          activityFinish env st2 user activity ws we (r1.attempts ++ r2.attempts)
            [(activity.locationStart, dateStart), (activity.locationEnd, dateEnd)]

/-- StormGlass static coverage window. -/
def stormglassName : String := "stormglass"

/-- StormGlass `hoursPast`. -/
def stormglassHoursPast : Int := 168

/-- StormGlass `hoursFuture`. -/
def stormglassHoursFuture : Int := 0

/-- outcome of the network-and-parse phase of one StormGlass call: the
scheduled request rejects, `toWeatherSummary` throws on the payload,
no row matches the requested hour (an undefined summary), or a summary
is produced. -/
inductive SGCallOutcome where
  | netFail : SGCallOutcome
  | parseFail : SGCallOutcome
  | noTimeData : SGCallOutcome
  | ok (w : WeatherSummary) : SGCallOutcome
deriving Repr, DecidableEq

/-- result of one StormGlass `getWeather` call: the resolved summary or
the rethrown error, the updated stats, and how many network requests
were issued. -/
structure SGResult where
  result : Except JsError (Option WeatherSummary)
  stats : WeatherApiStats
  networkCalls : Nat
deriving Repr, DecidableEq

/-- `StormGlass.getWeather`: the date-range guard on the absolute
truncated hour distance, then the network call; the catch block
increments the shared `errorCount` and rethrows on every throwing
path. -/
def sgGetWeather (now dDate : Int) (stats : WeatherApiStats)
    (outcome : SGCallOutcome) : SGResult :=
  let diffHours : Int := (hoursDiff now dDate).natAbs
  let isFuture := now < dDate
  let maxHours := if isFuture then stormglassHoursFuture else stormglassHoursPast
  if diffHours > maxHours then
    -- "Date out of range" is thrown before the network request
    { result := .error .genericError, stats := bumpError stats, networkCalls := 0 }
  else
    match outcome with
    | .netFail =>
      { result := .error .genericError, stats := bumpError stats, networkCalls := 1 }
    | .parseFail =>
      { result := .error .genericError, stats := bumpError stats, networkCalls := 1 }
    | .noTimeData =>
      { result := .ok none, stats := stats, networkCalls := 1 }
    | .ok w =>
      { result := .ok (some {w with provider := stormglassName}),
        stats := stats, networkCalls := 1 }

/-- fresh per-provider counters, as set by `Weather.init`. -/
def statsZero : WeatherApiStats :=
  { requestCount := 0
    errorCount := 0
    lastRequest := none }

/-- the StormGlass provider as registered at init. -/
def sgP : WeatherProvider :=
  { name := "stormglass"
    hoursPast := 168
    hoursFuture := 0
    stats := statsZero }

/-- the Open-Meteo provider as registered at init. -/
def omP : WeatherProvider :=
  { name := "openmeteo"
    hoursPast := 160
    hoursFuture := 160
    stats := statsZero }

/-- Open-Meteo with an expired disable date. -/
def omDisabled : WeatherProvider := {omP with disabledTillDate := some (-5)}

/-- a concrete environment: epoch now, a 500/day quota, deterministic
sampling draws, and adapters that always fail. -/
def baseEnv : Env :=
  { now := 0
    perDay := fun _ => 500
    defaultProviders := ["openmeteo"]
    sampleDefault := some "openmeteo"
    sampleOne := List.head?
    sampleTwo := fun l => l.take 2
    outcomes := fun _ => .fail }

/-- environment where StormGlass fails and every other adapter
succeeds. -/
def envC4 : Env :=
  {baseEnv with outcomes := fun n => if n = "stormglass" then .fail else .ok {provider := "x"}}

/-- environment where every adapter succeeds. -/
def envOk : Env :=
  {baseEnv with outcomes := fun _ => .ok {provider := "x", summary := some "Clear"}}

/-- a valid coordinate pair. -/
def coordsOk : List JsNum := [JsNum.num 10, JsNum.num 20]

/-- a second valid coordinate pair. -/
def coordsB : List JsNum := [JsNum.num 30, JsNum.num 40]

/-- registry holding only StormGlass. -/
def stOne : AggState :=
  { providers := [sgP]
    maxHoursPast := 168
    cache := [] }

/-- registry holding StormGlass and a previously disabled Open-Meteo. -/
def stTwo : AggState :=
  { providers := [sgP, omDisabled]
    maxHoursPast := 168
    cache := [] }

/-- registry with no providers. -/
def stEmpty : AggState :=
  { providers := []
    maxHoursPast := 168
    cache := [] }

/-- a user with no stored preferences. -/
def userNone : UserData := {preferences := none}

/-- a user whose stored preference is the Tomorrow provider. -/
def userTomorrow : UserData :=
  {preferences := some {weatherProvider := some "tomorrow"}}

/-- a two-hour activity starting at epoch with distinct start and end
coordinates. -/
def actC6 : StravaActivity :=
  { hasLocation := true
    dateStart := 0
    dateEnd := 7200000
    utcStartOffset := 0
    totalTime := 7200
    locationStart := some coordsOk
    locationEnd := some coordsB }

/-- an activity carrying only a start location. -/
def actC7 : StravaActivity :=
  { hasLocation := true
    dateStart := 0
    dateEnd := 0
    utcStartOffset := 0
    totalTime := 3600
    locationStart := some coordsOk }

/-- environment where every adapter fails with HTTP 402. -/
def envA402 : Env := {baseEnv with outcomes := fun _ => .httpFail 402}

/-- environment where StormGlass fails with a transport error and every
other adapter fails with HTTP 402. -/
def envD : Env :=
  {baseEnv with outcomes := fun n => if n = "stormglass" then .fail else .httpFail 402}

/-- a summary as a vendor would deliver it before normalization. -/
def wX : WeatherSummary := {provider := "x"}

/-- a summary with a condition text. -/
def wClear : WeatherSummary := {provider := "x", summary := some "Clear"}

/-- a cached StormGlass summary. -/
def wSG : WeatherSummary := {provider := "stormglass"}

/-- registry with one provider and a cache entry for `coordsOk` at
epoch. -/
def stCache : AggState :=
  { providers := [sgP]
    maxHoursPast := 168
    cache := [(weatherCacheKey [roundTo4 10, roundTo4 20] 0, some wSG)] }

/-- an activity that ended 700 hours before epoch. -/
def actOld : StravaActivity :=
  { hasLocation := true
    dateStart := -2520000000
    dateEnd := -2520000000
    utcStartOffset := 0
    totalTime := 3600
    locationStart := some coordsOk }

/-- C1.  The failing input of the claim: one eligible provider (the
resolved preference matches no eligible provider, so the candidate list
is a single random draw), whose adapter rejects.  The source logs the
failure but then falls through to `cache.set` and `result.provider`
with `result` unset, so `getLocationWeather` throws a TypeError instead
of returning null; the adapter was attempted exactly once.  The claim
(and the spec's propagation policy) say this call returns null. -/
theorem getLocationWeather_sole_candidate_failure_throws :
    (getLocationWeather baseEnv stOne userNone (some coordsOk) (some 0)
        (some "nope")).result = .error .typeError ∧
    (getLocationWeather baseEnv stOne userNone (some coordsOk) (some 0)
        (some "nope")).attempts = ["stormglass"] := by
  constructor <;> rfl

/-- C6.  Evaluation at the failing input: an activity starting at epoch
and ending two hours later.  The inner lookups receive the pairs
(startLocation, dateStart) and (endLocation, dateStart): the end
coordinate is paired with the start time, because the source builds
`dateEnd` from `activity.dateStart`.  The claim (and the spec) pair the
end coordinate with the activity's end time. -/
theorem end_lookup_uses_start_date :
    actC6.dateEnd = 7200000 ∧
    (getActivityWeather baseEnv stEmpty userNone actC6).lookups =
      [(some coordsOk, 0), (some coordsB, 0)] := by
  constructor <;> rfl

/-- C9 counterexample.  The point in time 1800000 ms (30 min in the
future) lies outside StormGlass's coverage window
`[now - hoursPast, now + hoursFuture]` (hoursFuture = 0), yet the
adapter does not fail locally: it issues a network request, because the
range guard compares whole truncated hours and `|trunc(-0.5 h)| = 0` is
not greater than 0. -/
theorem sg_boundary_escapes_range_check :
    (0 : Int) + stormglassHoursFuture * msPerHour < 1800000 ∧
    (sgGetWeather 0 1800000 statsZero (.ok {provider := "x"})).networkCalls = 1 ∧
    (sgGetWeather 0 1800000 statsZero (.ok {provider := "x"})).result =
      .ok (some {provider := stormglassName}) := by
  refine ⟨by decide, rfl, rfl⟩

/-- C10.  The eligibility filtering step of `getLocationWeather` is a
pure predicate over the registry: its output is a sublist of the
registry, made of the very provider records held there.  No runtime
field — `requestCount`, `errorCount`, `lastRequest`, `disabledTillDate`
— of any provider changes; in particular a provider admitted through
the 16-hour escape keeps its accumulated `requestCount`. -/
theorem availableProviders_frame (env : Env) (hours : Int)
    (providers : List WeatherProvider) :
    (availableProviders env hours providers).Sublist providers :=
  List.filter_sublist providers

/-- the Bool eligibility predicate unfolded into its three clauses, for
providers with a non-negative coverage window. -/
theorem eligibleProvider_iff_clauses (env : Env) (hours : Int) (p : WeatherProvider)
    (hp : 0 ≤ p.hoursPast) (hf : 0 ≤ p.hoursFuture) :
    eligibleProvider env hours p = true ↔
      ((if 0 ≤ hours then hours ≤ p.hoursPast else -hours ≤ p.hoursFuture) ∧
       (p.disabledTillDate = none ∨ ∃ dd, p.disabledTillDate = some dd ∧ dd ≤ env.now) ∧
       (p.stats.requestCount < env.perDay p.name ∨
        ∃ lr, p.stats.lastRequest = some lr ∧ hoursDiff env.now lr > 16)) := by
  unfold eligibleProvider
  cases hd : p.disabledTillDate <;> cases hl : p.stats.lastRequest <;>
    by_cases h1 : p.hoursPast < hours <;> by_cases h2 : p.hoursFuture < -hours <;>
      by_cases h0 : (0 : Int) ≤ hours <;>
      simp [h0, h1, h2, hd, hl] <;>
      omega

/-- the validity check and mid lookup preserve the start/mid/end values
and decide nullness exactly from start and end. -/
theorem activityFinish_partial (env : Env) (st : AggState) (user : UserData)
    (activity : StravaActivity) (ws we : Option WeatherSummary)
    (attempts : List String) (lookups : List (Option (List JsNum) × Int)) :
    ((activityFinish env st user activity ws we attempts lookups).result = none ↔
      (activityFinish env st user activity ws we attempts lookups).startResult = none ∧
      (activityFinish env st user activity ws we attempts lookups).endResult = none) ∧
    (∀ aw, (activityFinish env st user activity ws we attempts lookups).result = some aw →
      aw.start = (activityFinish env st user activity ws we attempts lookups).startResult ∧
      aw.mid = (activityFinish env st user activity ws we attempts lookups).midResult ∧
      aw.«end» = (activityFinish env st user activity ws we attempts lookups).endResult) := by
  unfold activityFinish mkActivityResult
  repeat' split
  all_goals simp_all

/-- the catch block never reports a cache answer. -/
theorem afterFirstFailure_usedCache (env : Env) (st : AggState) (key : CacheKey)
    (pm1 : WeatherProvider) (status : Option Nat)
    (restC candidates : List (Option WeatherProvider))
    (firstName : String) (rp : Option String) (isDef : Bool) :
    (afterFirstFailure env st key pm1 status restC candidates firstName rp
      isDef).usedCache = false := by
  unfold afterFirstFailure
  repeat' split
  all_goals rfl

/-- the candidate attempts never report a cache answer. -/
theorem runCandidates_usedCache (env : Env) (st : AggState) (key : CacheKey)
    (candidates : List (Option WeatherProvider)) (rp : Option String) (isDef : Bool) :
    (runCandidates env st key candidates rp isDef).usedCache = false := by
  unfold runCandidates
  repeat' split
  all_goals first
  | rfl
  | apply afterFirstFailure_usedCache

/-- a fresh fetch never reports a cache answer. -/
theorem fetchFresh_usedCache (env : Env) (st : AggState) (coords : List Rat) (d : Int)
    (rp : Option String) (isDef : Bool) :
    (fetchFresh env st coords d rp isDef).usedCache = false := by
  unfold fetchFresh
  dsimp only
  repeat' split
  all_goals first
  | rfl
  | apply runCandidates_usedCache

/-- the catch block attempts at most one further adapter. -/
theorem afterFirstFailure_attempts (env : Env) (st : AggState) (key : CacheKey)
    (pm1 : WeatherProvider) (status : Option Nat)
    (restC candidates : List (Option WeatherProvider))
    (firstName : String) (rp : Option String) (isDef : Bool) :
    (afterFirstFailure env st key pm1 status restC candidates firstName rp
      isDef).attempts.length ≤ 2 := by
  unfold afterFirstFailure
  repeat' split
  all_goals simp

/-- the candidate runner attempts at most two adapters. -/
theorem runCandidates_attempts (env : Env) (st : AggState) (key : CacheKey)
    (candidates : List (Option WeatherProvider)) (rp : Option String) (isDef : Bool) :
    (runCandidates env st key candidates rp isDef).attempts.length ≤ 2 := by
  unfold runCandidates
  repeat' split
  all_goals first
  | simp
  | apply afterFirstFailure_attempts

/-- a fresh fetch attempts at most two adapters. -/
theorem fetchFresh_attempts (env : Env) (st : AggState) (coords : List Rat) (d : Int)
    (rp : Option String) (isDef : Bool) :
    (fetchFresh env st coords d rp isDef).attempts.length ≤ 2 := by
  unfold fetchFresh
  dsimp only
  repeat' split
  all_goals first
  | simp
  | apply runCandidates_attempts

/-- one location lookup attempts at most two adapters. -/
theorem getLocationWeather_attempts_le_two (env : Env) (st : AggState) (user : UserData)
    (coordinates : Option (List JsNum)) (dDate : Option Int) (provider : Option String) :
    (getLocationWeather env st user coordinates dDate provider).attempts.length ≤ 2 := by
  unfold getLocationWeather
  dsimp only
  repeat' split
  all_goals first
  | simp
  | apply fetchFresh_attempts

/-- full run of `getLocationWeather` on a two-provider registry where the
preferred provider's adapter rejects with a transport error and the
randomly drawn second succeeds. -/
theorem getLocationWeather_fallback_run (env : Env) (st : AggState) (user : UserData)
    (p q : WeatherProvider) (w : WeatherSummary) (a b : Rat) (d : Int)
    (hprov : st.providers = [p, q])
    (hne : q.name ≠ p.name)
    (heligp : eligibleProvider env (hoursDiff env.now d) p = true)
    (heligq : eligibleProvider env (hoursDiff env.now d) q = true)
    (hmiss : cacheGet st.cache (weatherCacheKey [roundTo4 a, roundTo4 b] d) = none)
    (hsample : env.sampleOne [q] = some q)
    (hout1 : env.outcomes p.name = .fail)
    (hout2 : env.outcomes q.name = .ok w) :
    getLocationWeather env st user (some [JsNum.num a, JsNum.num b]) (some d) (some p.name) =
      { result := .ok (some {w with provider := q.name}),
        providers := [{p with stats := bumpError p.stats}, q],
        cache := cacheSet st.cache (weatherCacheKey [roundTo4 a, roundTo4 b] d)
          (some {w with provider := q.name}),
        attempts := [p.name, q.name],
        candidates := [some p, some q],
        resolvedProvider := some p.name,
        isDefaultProvider := false,
        usedCache := false } := by
  have hne' : p.name ≠ q.name := Ne.symm hne
  simp [getLocationWeather, resolveProvider, hmiss, fetchFresh,
    availableProviders, hprov, List.filter, heligp, heligq,
    Option.some.injEq, hne, hne', List.map,
    hsample, runCandidates, callAdapter, hout1, hout2, afterFirstFailure,
    setProvider]

/-- full run of `getLocationWeather` on a one-provider registry whose
sole (preferred) adapter rejects with HTTP 402. -/
theorem getLocationWeather_quota402_run (env : Env) (st : AggState) (user : UserData)
    (p : WeatherProvider) (a b : Rat) (d : Int)
    (hprov : st.providers = [p])
    (helig : eligibleProvider env (hoursDiff env.now d) p = true)
    (hmiss : cacheGet st.cache (weatherCacheKey [roundTo4 a, roundTo4 b] d) = none)
    (hsample0 : env.sampleOne [] = none)
    (hout : env.outcomes p.name = .httpFail 402) :
    getLocationWeather env st user (some [JsNum.num a, JsNum.num b]) (some d) (some p.name) =
      { result := .error .typeError,
        providers := [{p with
          stats := bumpError p.stats
          disabledTillDate := some (endOfDay env.now + msPerHour)}],
        cache := st.cache,
        attempts := [p.name],
        candidates := [some p, none],
        resolvedProvider := some p.name,
        isDefaultProvider := false,
        usedCache := false } := by
  simp [getLocationWeather, resolveProvider, hmiss, fetchFresh, availableProviders,
    hprov, List.filter, helig, hsample0, runCandidates, callAdapter, hout,
    afterFirstFailure, setProvider]

/-- full run of `getLocationWeather` on a one-provider registry whose
sole (preferred) adapter succeeds. -/
theorem getLocationWeather_success_run (env : Env) (st : AggState) (user : UserData)
    (p : WeatherProvider) (w : WeatherSummary) (a b : Rat) (d : Int)
    (hprov : st.providers = [p])
    (helig : eligibleProvider env (hoursDiff env.now d) p = true)
    (hmiss : cacheGet st.cache (weatherCacheKey [roundTo4 a, roundTo4 b] d) = none)
    (hsample0 : env.sampleOne [] = none)
    (hout : env.outcomes p.name = .ok w) :
    getLocationWeather env st user (some [JsNum.num a, JsNum.num b]) (some d) (some p.name) =
      { result := .ok (some {w with provider := p.name}),
        providers := [{p with disabledTillDate := none}],
        cache := cacheSet st.cache (weatherCacheKey [roundTo4 a, roundTo4 b] d)
          (some {w with provider := p.name}),
        attempts := [p.name],
        candidates := [some p, none],
        resolvedProvider := some p.name,
        isDefaultProvider := false,
        usedCache := false } := by
  simp [getLocationWeather, resolveProvider, hmiss, fetchFresh, availableProviders,
    hprov, List.filter, helig, hsample0, runCandidates, callAdapter, hout,
    setProvider]

/-- full run of `getLocationWeather` on a two-provider registry where the
preferred adapter rejects with a transport error and the second rejects
with HTTP 402. -/
theorem getLocationWeather_bothfail_run (env : Env) (st : AggState) (user : UserData)
    (p q : WeatherProvider) (a b : Rat) (d : Int)
    (hprov : st.providers = [p, q])
    (hne : q.name ≠ p.name)
    (heligp : eligibleProvider env (hoursDiff env.now d) p = true)
    (heligq : eligibleProvider env (hoursDiff env.now d) q = true)
    (hmiss : cacheGet st.cache (weatherCacheKey [roundTo4 a, roundTo4 b] d) = none)
    (hsample : env.sampleOne [q] = some q)
    (hout1 : env.outcomes p.name = .fail)
    (hout2 : env.outcomes q.name = .httpFail 402) :
    getLocationWeather env st user (some [JsNum.num a, JsNum.num b]) (some d) (some p.name) =
      { result := .ok none,
        providers := [{p with stats := bumpError p.stats},
                      {q with stats := bumpError q.stats}],
        cache := st.cache,
        attempts := [p.name, q.name],
        candidates := [some p, some q],
        resolvedProvider := some p.name,
        isDefaultProvider := false,
        usedCache := false } := by
  have hne' : p.name ≠ q.name := Ne.symm hne
  simp [getLocationWeather, resolveProvider, hmiss, fetchFresh, availableProviders,
    hprov, List.filter, heligp, heligq, hne, hne', hsample, runCandidates,
    callAdapter, hout1, hout2, afterFirstFailure, setProvider]

/-- C2.  A provider is in the eligible set computed by
`getLocationWeather` (the `availableProviders` filter) at hour distance
`hours` (the truncated value of now minus the point in time, positive
for past queries) iff it is registered and (1) `hoursPast` covers a past
distance / `hoursFuture` covers a future distance, (2) `disabledTillDate`
is null or not after now, and (3) `requestCount` is under the daily
limit or more than 16 whole hours passed since `lastRequest`. -/
theorem getLocationWeather_eligibility_iff (env : Env) (hours : Int)
    (providers : List WeatherProvider) (p : WeatherProvider)
    (hp : 0 ≤ p.hoursPast) (hf : 0 ≤ p.hoursFuture) :
    p ∈ availableProviders env hours providers ↔
      p ∈ providers ∧
        (if 0 ≤ hours then hours ≤ p.hoursPast else -hours ≤ p.hoursFuture) ∧
        (p.disabledTillDate = none ∨ ∃ dd, p.disabledTillDate = some dd ∧ dd ≤ env.now) ∧
        (p.stats.requestCount < env.perDay p.name ∨
         ∃ lr, p.stats.lastRequest = some lr ∧ hoursDiff env.now lr > 16) := by
  rw [availableProviders, List.mem_filter,
    eligibleProvider_iff_clauses env hours p hp hf]

/-- C2 witness: StormGlass is eligible for a query three hours in the
past against a fresh registry. -/
theorem getLocationWeather_eligibility_iff_witness :
    sgP ∈ availableProviders baseEnv 3 [sgP] :=
  (getLocationWeather_eligibility_iff baseEnv 3 [sgP] sgP (by decide) (by decide)).mpr
    ⟨List.mem_singleton.mpr rfl, by decide, Or.inl rfl, Or.inl (by decide)⟩

/-- C3 counterexample.  When the resolved preferred provider is eligible
but is the only eligible provider, the candidate list built by
`getLocationWeather` is not "[preferred, one other eligible provider]":
its second slot holds undefined (`_.sample` of the emptied list), not an
eligible provider, and the attempted fallback then throws. -/
theorem candidate_second_slot_undefined :
    sgP ∈ availableProviders baseEnv 0 stOne.providers ∧
    (getLocationWeather baseEnv stOne userNone (some coordsOk) (some 0)
      (some "stormglass")).candidates = [some sgP, none] ∧
    (getLocationWeather baseEnv stOne userNone (some coordsOk) (some 0)
      (some "stormglass")).result = .error .typeError := by
  refine ⟨by decide, rfl, rfl⟩

/-- C3 (amended).  When the preferred provider is eligible and at least
one other eligible provider remains, the candidate list is [preferred,
one other eligible provider chosen at random]; the second candidate is
attempted only after the first attempt fails (the attempt order is
exactly [first, second]), there is never a third attempt (no run ever
attempts more than two adapters), and when the first candidate fails
with a transport error and the second succeeds, the returned summary
carries the second provider's name while the first provider's
`errorCount` grows by exactly one and the second's is untouched. -/
theorem getLocationWeather_fallback_policy (env : Env) (st : AggState) (user : UserData)
    (p q : WeatherProvider) (w : WeatherSummary) (a b : Rat) (d : Int)
    (hprov : st.providers = [p, q])
    (hne : q.name ≠ p.name)
    (heligp : eligibleProvider env (hoursDiff env.now d) p = true)
    (heligq : eligibleProvider env (hoursDiff env.now d) q = true)
    (hmiss : cacheGet st.cache (weatherCacheKey [roundTo4 a, roundTo4 b] d) = none)
    (hsample : env.sampleOne [q] = some q)
    (hout1 : env.outcomes p.name = .fail)
    (hout2 : env.outcomes q.name = .ok w) :
    (getLocationWeather env st user (some [JsNum.num a, JsNum.num b]) (some d)
      (some p.name)).candidates = [some p, some q] ∧
    (getLocationWeather env st user (some [JsNum.num a, JsNum.num b]) (some d)
      (some p.name)).attempts = [p.name, q.name] ∧
    (∃ w', (getLocationWeather env st user (some [JsNum.num a, JsNum.num b]) (some d)
      (some p.name)).result = .ok (some w') ∧ w'.provider = q.name) ∧
    (getLocationWeather env st user (some [JsNum.num a, JsNum.num b]) (some d)
        (some p.name)).providers.map (fun r => r.stats.errorCount) =
      [p.stats.errorCount + 1, q.stats.errorCount] ∧
    (∀ env2 st2 user2 c2 dd2 pv2,
      (getLocationWeather env2 st2 user2 c2 dd2 pv2).attempts.length ≤ 2) := by
  rw [getLocationWeather_fallback_run env st user p q w a b d hprov hne heligp
    heligq hmiss hsample hout1 hout2]
  refine ⟨rfl, rfl, ⟨{w with provider := q.name}, rfl, rfl⟩, by simp [bumpError],
    getLocationWeather_attempts_le_two⟩

/-- C3 witness: StormGlass preferred and failing, Open-Meteo drawn as
the fallback and succeeding. -/
theorem getLocationWeather_fallback_policy_witness :
    (getLocationWeather envC4 stTwo userNone (some coordsOk) (some 0)
      (some "stormglass")).attempts = ["stormglass", "openmeteo"] ∧
    (getLocationWeather envC4 stTwo userNone (some coordsOk) (some 0)
        (some "stormglass")).providers.map (fun r => r.stats.errorCount) = [1, 0] :=
  ⟨(getLocationWeather_fallback_policy envC4 stTwo userNone sgP omDisabled wX
      10 20 0 rfl (by decide) (by decide) (by decide) rfl rfl rfl rfl).2.1,
   ((getLocationWeather_fallback_policy envC4 stTwo userNone sgP omDisabled wX
      10 20 0 rfl (by decide) (by decide) (by decide) rfl rfl rfl rfl).2.2.2.1).trans
     (by decide)⟩

/-- C4 counterexample.  StormGlass (preferred) fails with a transport
error; the fallback Open-Meteo succeeds while carrying an expired
`disabledTillDate`.  The success does not clear it: the claim's "every
successful adapter call clears that provider's disabledTillDate,
including a success obtained via the fallback candidate" is false. -/
theorem fallback_success_keeps_disabledTillDate :
    omDisabled.disabledTillDate = some (-5) ∧
    (getLocationWeather envC4 stTwo userNone (some coordsOk) (some 0)
      (some "stormglass")).result = .ok (some {provider := "openmeteo"}) ∧
    (getLocationWeather envC4 stTwo userNone (some coordsOk) (some 0)
        (some "stormglass")).providers.map (fun r => r.disabledTillDate) =
      [none, some (-5)] := by
  refine ⟨rfl, rfl, rfl⟩

/-- C4 (amended).  Only the first candidate's attempt drives the
`disabledTillDate` lifecycle: a first-candidate HTTP 402 failure sets
its `disabledTillDate` to the end of the current day plus one hour, a
first-candidate success clears it, and the second candidate's
`disabledTillDate` is never touched — neither by its success nor by its
own HTTP 402 failure. -/
theorem disabledTillDate_lifecycle (env : Env) (stA stB : AggState) (user : UserData)
    (p q : WeatherProvider) (w : WeatherSummary) (a b : Rat) (d : Int)
    (hprovA : stA.providers = [p])
    (hprovB : stB.providers = [p, q])
    (hne : q.name ≠ p.name)
    (heligp : eligibleProvider env (hoursDiff env.now d) p = true)
    (heligq : eligibleProvider env (hoursDiff env.now d) q = true)
    (hmissA : cacheGet stA.cache (weatherCacheKey [roundTo4 a, roundTo4 b] d) = none)
    (hmissB : cacheGet stB.cache (weatherCacheKey [roundTo4 a, roundTo4 b] d) = none)
    (hsample0 : env.sampleOne [] = none)
    (hsample : env.sampleOne [q] = some q) :
    (env.outcomes p.name = .httpFail 402 →
      (getLocationWeather env stA user (some [JsNum.num a, JsNum.num b]) (some d)
          (some p.name)).providers.map (fun r => r.disabledTillDate) =
        [some (endOfDay env.now + msPerHour)]) ∧
    (env.outcomes p.name = .ok w →
      (getLocationWeather env stA user (some [JsNum.num a, JsNum.num b]) (some d)
          (some p.name)).providers.map (fun r => r.disabledTillDate) = [none]) ∧
    (env.outcomes p.name = .fail → env.outcomes q.name = .ok w →
      (getLocationWeather env stB user (some [JsNum.num a, JsNum.num b]) (some d)
          (some p.name)).providers.map (fun r => r.disabledTillDate) =
        [p.disabledTillDate, q.disabledTillDate] ∧
      (∃ w', (getLocationWeather env stB user (some [JsNum.num a, JsNum.num b]) (some d)
        (some p.name)).result = .ok (some w') ∧ w'.provider = q.name)) ∧
    (env.outcomes p.name = .fail → env.outcomes q.name = .httpFail 402 →
      (getLocationWeather env stB user (some [JsNum.num a, JsNum.num b]) (some d)
          (some p.name)).providers.map (fun r => r.disabledTillDate) =
        [p.disabledTillDate, q.disabledTillDate]) := by
  refine ⟨?_, ?_, ?_, ?_⟩
  · intro hout
    rw [getLocationWeather_quota402_run env stA user p a b d hprovA heligp hmissA
      hsample0 hout]
    simp
  · intro hout
    rw [getLocationWeather_success_run env stA user p w a b d hprovA heligp hmissA
      hsample0 hout]
    simp
  · intro hout1 hout2
    rw [getLocationWeather_fallback_run env stB user p q w a b d hprovB hne heligp
      heligq hmissB hsample hout1 hout2]
    exact ⟨by simp, ⟨{w with provider := q.name}, rfl, rfl⟩⟩
  · intro hout1 hout2
    rw [getLocationWeather_bothfail_run env stB user p q a b d hprovB hne heligp
      heligq hmissB hsample hout1 hout2]
    simp

/-- C4 witness: the four lifecycle scenarios on concrete registries
(StormGlass alone; StormGlass plus a previously disabled Open-Meteo). -/
theorem disabledTillDate_lifecycle_witness :
    (getLocationWeather envA402 stOne userNone (some coordsOk) (some 0)
        (some "stormglass")).providers.map (fun r => r.disabledTillDate) =
      [some (endOfDay 0 + msPerHour)] ∧
    (getLocationWeather envOk stOne userNone (some coordsOk) (some 0)
        (some "stormglass")).providers.map (fun r => r.disabledTillDate) = [none] ∧
    (getLocationWeather envC4 stTwo userNone (some coordsOk) (some 0)
        (some "stormglass")).providers.map (fun r => r.disabledTillDate) =
      [none, some (-5)] ∧
    (getLocationWeather envD stTwo userNone (some coordsOk) (some 0)
        (some "stormglass")).providers.map (fun r => r.disabledTillDate) =
      [none, some (-5)] :=
  ⟨(disabledTillDate_lifecycle envA402 stOne stTwo userNone sgP omDisabled wX
      10 20 0 rfl rfl (by decide) (by decide) (by decide) rfl rfl rfl rfl).1 rfl,
   (disabledTillDate_lifecycle envOk stOne stTwo userNone sgP omDisabled wClear
      10 20 0 rfl rfl (by decide) (by decide) (by decide) rfl rfl rfl rfl).2.1 rfl,
   ((disabledTillDate_lifecycle envC4 stOne stTwo userNone sgP omDisabled wX
      10 20 0 rfl rfl (by decide) (by decide) (by decide) rfl rfl rfl rfl).2.2.1
     rfl rfl).1,
   (disabledTillDate_lifecycle envD stOne stTwo userNone sgP omDisabled wX
      10 20 0 rfl rfl (by decide) (by decide) (by decide) rfl rfl rfl rfl).2.2.2
     rfl rfl⟩

/-- C5 counterexample.  With no explicit provider parameter and a user
whose stored preference is "tomorrow" (not in the default pool), the
resolution comes from the user preference, yet `isDefaultProvider` is
true — refuting "isDefaultSelection true exactly when the resolution
came from the default pool". -/
theorem isDefaultProvider_despite_user_preference :
    (getLocationWeather baseEnv stOne userTomorrow (some coordsOk) (some 0)
      none).isDefaultProvider = true ∧
    (getLocationWeather baseEnv stOne userTomorrow (some coordsOk) (some 0)
      none).resolvedProvider = some "tomorrow" ∧
    baseEnv.defaultProviders.contains "tomorrow" = false := by
  refine ⟨rfl, rfl, rfl⟩

/-- C5 (amended).  `getLocationWeather` resolves the provider as
explicit parameter, else the user's stored preference, else the sampled
default; `isDefaultSelection` is true exactly when no explicit parameter
was given (also when the stored preference decided).  A cached entry for
the rounded coordinates and timestamp is returned iff it exists and
either that flag is true or the entry's provider equals the resolved
one; otherwise the cache is bypassed (a non-cache run never reports a
cache answer, and a cache answer is returned verbatim with no adapter
attempted). -/
theorem provider_resolution_and_cache_usability (env : Env) (st : AggState)
    (user : UserData) (a b : Rat) (d : Int) (provider : Option String) :
    (∀ pname, provider = some pname →
      resolveProvider env user provider = (some pname, false)) ∧
    (∀ prefs wp, provider = none → user.preferences = some prefs →
      prefs.weatherProvider = some wp →
      resolveProvider env user provider = (some wp, true)) ∧
    (provider = none →
      (∀ prefs, user.preferences = some prefs → prefs.weatherProvider = none) →
      resolveProvider env user provider = (env.sampleDefault, true)) ∧
    ((getLocationWeather env st user (some [JsNum.num a, JsNum.num b]) (some d)
        provider).usedCache = true ↔
      (∃ w, cacheGet st.cache (weatherCacheKey [roundTo4 a, roundTo4 b] d) = some w ∧
        ((resolveProvider env user provider).2 = true ∨
         (resolveProvider env user provider).1 = some w.provider))) ∧
    ((getLocationWeather env st user (some [JsNum.num a, JsNum.num b]) (some d)
        provider).usedCache = true →
      (getLocationWeather env st user (some [JsNum.num a, JsNum.num b]) (some d)
          provider).result =
        .ok (cacheGet st.cache (weatherCacheKey [roundTo4 a, roundTo4 b] d)) ∧
      (getLocationWeather env st user (some [JsNum.num a, JsNum.num b]) (some d)
          provider).attempts = []) := by
  refine ⟨?_, ?_, ?_, ?_, ?_⟩
  · intro pname h
    subst h
    rfl
  · intro prefs wp h hp hw
    subst h
    simp only [resolveProvider, hp, hw]
  · intro h hnone
    subst h
    cases hu : user.preferences with
    | none => simp only [resolveProvider, hu]
    | some prefs => simp only [resolveProvider, hu, hnone prefs hu]
  · simp only [getLocationWeather]
    rcases hres : resolveProvider env user provider with ⟨rp, isDef⟩
    simp only [hres]
    cases hc : cacheGet st.cache (weatherCacheKey [roundTo4 a, roundTo4 b] d) with
    | none =>
      simp [fetchFresh_usedCache, hc]
    | some cached =>
      simp only [hc]
      by_cases hcond : isDef = true ∨ rp = some cached.provider
      · rw [if_pos hcond]
        simp only [true_iff]
        exact ⟨cached, rfl, hcond⟩
      · rw [if_neg hcond]
        rw [fetchFresh_usedCache]
        simp only [Bool.false_eq_true, false_iff]
        rintro ⟨w, hw, hcase⟩
        cases Option.some.inj hw
        exact hcond hcase
  · simp only [getLocationWeather]
    rcases hres : resolveProvider env user provider with ⟨rp, isDef⟩
    simp only [hres]
    cases hc : cacheGet st.cache (weatherCacheKey [roundTo4 a, roundTo4 b] d) with
    | none =>
      simp [fetchFresh_usedCache, hc]
    | some cached =>
      simp only [hc]
      by_cases hcond : isDef = true ∨ rp = some cached.provider
      · rw [if_pos hcond]
        intro _
        exact ⟨rfl, rfl⟩
      · rw [if_neg hcond]
        rw [fetchFresh_usedCache]
        intro hfalse
        cases hfalse

/-- C5 witness: the three resolution modes and a usable cache hit on a
non-specific request. -/
theorem provider_resolution_and_cache_usability_witness :
    resolveProvider baseEnv userNone (some "tomorrow") = (some "tomorrow", false) ∧
    resolveProvider baseEnv userTomorrow none = (some "tomorrow", true) ∧
    resolveProvider baseEnv userNone none = (some "openmeteo", true) ∧
    (getLocationWeather baseEnv stCache userNone (some coordsOk) (some 0)
      none).usedCache = true :=
  ⟨(provider_resolution_and_cache_usability baseEnv stOne userNone 10 20 0
      (some "tomorrow")).1 "tomorrow" rfl,
   (provider_resolution_and_cache_usability baseEnv stOne userTomorrow 10 20 0
      none).2.1 {weatherProvider := some "tomorrow"} "tomorrow" rfl rfl rfl,
   (provider_resolution_and_cache_usability baseEnv stOne userNone 10 20 0
      none).2.2.1 rfl (fun prefs h => by cases h),
   ((provider_resolution_and_cache_usability baseEnv stCache userNone 10 20 0
      none).2.2.2.1).mpr ⟨wSG, by simp [cacheGet, stCache, List.find?], Or.inl rfl⟩⟩

/-- C7.  `getActivityWeather` returns null exactly when neither the
start nor the end lookup produced a summary (a mid-only success is still
discarded); when at least one produced a summary the report is returned
as-is, its start/mid/end fields being precisely the values the three
lookups produced. -/
theorem getActivityWeather_partial_results (env : Env) (st : AggState)
    (user : UserData) (activity : StravaActivity) :
    ((getActivityWeather env st user activity).result = none ↔
      (getActivityWeather env st user activity).startResult = none ∧
      (getActivityWeather env st user activity).endResult = none) ∧
    (∀ aw, (getActivityWeather env st user activity).result = some aw →
      aw.start = (getActivityWeather env st user activity).startResult ∧
      aw.mid = (getActivityWeather env st user activity).midResult ∧
      aw.«end» = (getActivityWeather env st user activity).endResult) := by
  unfold getActivityWeather
  cases hL : activity.hasLocation
  · simp
  · simp only [hL, Bool.not_true, Bool.false_eq_true, if_false]
    split
    · simp
    · split
      · exact activityFinish_partial _ _ _ _ _ _ _ _
      · split <;> exact activityFinish_partial _ _ _ _ _ _ _ _

/-- C7 witness: an activity with only a start location yields a report
with start populated and end absent, not a failure. -/
theorem getActivityWeather_partial_results_witness :
    (getActivityWeather envOk stOne userNone actC7).result =
      some { start := some {provider := "stormglass", summary := some "Clear"},
             mid := none,
             «end» := none } ∧
    ({ start := some {provider := "stormglass", summary := some "Clear"},
       mid := none,
       «end» := none } : ActivityWeather).start =
      (getActivityWeather envOk stOne userNone actC7).startResult :=
  ⟨rfl,
   ((getActivityWeather_partial_results envOk stOne userNone actC7).2 _ rfl).1⟩

/-- C8.  An activity that ended more than `maxHoursPast` hours before
now (with `maxHoursPast` the init-time maximum of the registered
providers' `hoursPast`) makes `getActivityWeather` return null with no
inner lookup performed and no adapter invoked. -/
theorem getActivityWeather_out_of_coverage (env : Env) (st : AggState)
    (user : UserData) (activity : StravaActivity)
    (_hm : st.maxHoursPast = initMaxHoursPast st.providers)
    (h : activity.dateEnd < env.now - st.maxHoursPast * msPerHour) :
    (getActivityWeather env st user activity).result = none ∧
    (getActivityWeather env st user activity).attempts = [] ∧
    (getActivityWeather env st user activity).lookups = [] := by
  unfold getActivityWeather
  cases hL : activity.hasLocation <;> simp [hL]
  rw [if_pos (by omega)]
  simp

/-- C8 witness: an activity 700 hours in the past against a registry
whose maximal coverage is 168 hours. -/
theorem getActivityWeather_out_of_coverage_witness :
    (getActivityWeather baseEnv stOne userNone actOld).result = none ∧
    (getActivityWeather baseEnv stOne userNone actOld).attempts = [] ∧
    (getActivityWeather baseEnv stOne userNone actOld).lookups = [] :=
  getActivityWeather_out_of_coverage baseEnv stOne userNone actOld rfl (by decide)

/-- C9 (amended).  `StormGlass.getWeather` fails locally — before any
network request, with the shared `errorCount` incremented — exactly when
the absolute truncated whole-hour distance between now and the point in
time exceeds the window bound (`hoursFuture` for a future date,
`hoursPast` otherwise); a point less than one full hour beyond the
boundary is not rejected locally.  Moreover every throwing path of the
adapter increments the shared `errorCount` by exactly one. -/
theorem sg_range_check_and_error_counter (now d : Int) (stats : WeatherApiStats)
    (outcome : SGCallOutcome) :
    (((hoursDiff now d).natAbs : Int) >
        (if now < d then stormglassHoursFuture else stormglassHoursPast) →
      (sgGetWeather now d stats outcome).result = .error .genericError ∧
      (sgGetWeather now d stats outcome).networkCalls = 0 ∧
      (sgGetWeather now d stats outcome).stats.errorCount = stats.errorCount + 1) ∧
    (∀ e, (sgGetWeather now d stats outcome).result = .error e →
      (sgGetWeather now d stats outcome).stats.errorCount = stats.errorCount + 1) := by
  unfold sgGetWeather
  dsimp only
  by_cases hgt : ((hoursDiff now d).natAbs : Int) >
      (if now < d then stormglassHoursFuture else stormglassHoursPast)
  · rw [if_pos hgt]
    exact ⟨fun _ => ⟨rfl, rfl, rfl⟩, fun e _ => rfl⟩
  · rw [if_neg hgt]
    refine ⟨fun h => absurd h hgt, ?_⟩
    cases outcome <;> simp [bumpError]

/-- C9 witness: a date 700 whole hours in the past is rejected without a
network call and the error counter grows by one. -/
theorem sg_range_check_and_error_counter_witness :
    (sgGetWeather 0 (-2520000000) statsZero .netFail).result = .error .genericError ∧
    (sgGetWeather 0 (-2520000000) statsZero .netFail).networkCalls = 0 ∧
    (sgGetWeather 0 (-2520000000) statsZero .netFail).stats.errorCount =
      statsZero.errorCount + 1 :=
  (sg_range_check_and_error_counter 0 (-2520000000) statsZero .netFail).1 (by decide)
